import Mathlib

/-!
Verification of the movie-browser component against its specification.

The repository holds two variants of the same React component:
* `src/src/components/Movie.js` — embedded below in namespace `MovieA`;
* `src/unnamed/part_000`       — embedded below in namespace `MovieB`.

JavaScript runtime primitives used by the component (`Array.prototype.sort`,
`new Date(s).getTime()`, `encodeURIComponent`, string truthiness) are embedded
by their ECMAScript semantics, restricted to the values the component actually
handles (see the doc comment of each definition).
-/

namespace MovieApp

/-- A record of the remote API's results array, with the optional fields the
component reads (`title`, `release_date`, `vote_average`, `poster_path`).
`none` models an absent (`undefined`/`null`) field.  `vote_average` is a JSON
decimal, modelled as a rational; the component only compares these values and
comparison of IEEE doubles agrees with comparison of the decimal values they
denote. -/
structure Movie where
  id : Int
  title : Option String
  release_date : Option String
  vote_average : Option ℚ
  poster_path : Option String
deriving DecidableEq

/-- JavaScript truthiness of an optional string field: `undefined`, `null`
and the empty string are falsy. -/
def jsTruthy : Option String → Bool
  | none => false
  | some s => !(s == "")

/-- Evaluation of `v || d` on an optional string field (JS: falsy values select `d`). -/
def jsOr (v : Option String) (d : String) : String :=
  match v with
  | none => d
  | some s => if s = "" then d else s

/-- Evaluation of `v || d` on a string (JS: the empty string is falsy). -/
def jsOrStr (v d : String) : String :=
  if v = "" then d else v

/-- ECMAScript `String.prototype.trim`: strip leading and trailing
whitespace. -/
def jsTrim (s : String) : String :=
  String.mk (((s.data.dropWhile Char.isWhitespace).reverse.dropWhile
    Char.isWhitespace).reverse)

/-- Numeric value of a decimal digit character. -/
def digitVal (c : Char) : Nat := c.toNat - 48

/-- Gregorian leap-year rule. -/
def isLeapYear (y : Nat) : Bool :=
  (y % 4 == 0 && y % 100 != 0) || y % 400 == 0

/-- Number of days in a month of the proleptic Gregorian calendar. -/
def daysInMonth (y m : Nat) : Nat :=
  if m = 2 then (if isLeapYear y then 29 else 28)
  else if m = 4 ∨ m = 6 ∨ m = 9 ∨ m = 11 then 30
  else 31

/-- Days from 1970-01-01 to year `y`, month `m`, day `d` of the proleptic
Gregorian calendar (negative before the epoch); the standard civil-date
conversion. -/
def daysFromCivil (y : Int) (m d : Nat) : Int :=
  let yr : Int := if m ≤ 2 then y - 1 else y
  let era : Int := Int.fdiv yr 400
  let yoe : Int := yr - era * 400
  let mp : Nat := (m + 9) % 12
  let doy : Int := Int.ofNat ((153 * mp + 2) / 5 + d - 1)
  let doe : Int := yoe * 365 + Int.fdiv yoe 4 - Int.fdiv yoe 100 + doy
  era * 146097 + doe - 719468

/-- Model of `new Date(s).getTime()` for the ECMAScript date-only form
`YYYY-MM-DD`, the format of the API's `release_date` field: milliseconds since
the Unix epoch, interpreted as UTC.  Any other string is modelled as
unparsable (`none`, the `NaN` case); for strings outside the ECMAScript Date
Time String Format the result in JS is implementation-defined. -/
def parseDateMs (s : String) : Option Int :=
  match s.data with
  | [y1, y2, y3, y4, h1, mo1, mo2, h2, d1, d2] =>
    if h1 = '-' ∧ h2 = '-' ∧ ([y1, y2, y3, y4, mo1, mo2, d1, d2].all Char.isDigit) then
      let y := digitVal y1 * 1000 + digitVal y2 * 100 + digitVal y3 * 10 + digitVal y4
      let mo := digitVal mo1 * 10 + digitVal mo2
      let d := digitVal d1 * 10 + digitVal d2
      if 1 ≤ mo ∧ mo ≤ 12 ∧ 1 ≤ d ∧ d ≤ daysInMonth y mo then
        some (daysFromCivil (Int.ofNat y) mo d * 86400000)
      else none
    else none
  | _ => none

/-- Function `dateVal` from both variants' `sortedMovies`:
`m.release_date ? new Date(m.release_date).getTime() : 0`, then
`Number.isFinite(t) ? t : 0` (an unparsable date gives `NaN`, hence `0`). -/
def dateVal (m : Movie) : Int :=
  match m.release_date with
  | none => 0
  | some s =>
    if s = "" then 0
    else
      match parseDateMs s with
      | some t => t
      | none => 0

/-- Function `ratingVal` from both variants' `sortedMovies`:
`typeof m.vote_average === "number" ? m.vote_average : 0`. -/
def ratingVal (m : Movie) : ℚ :=
  match m.vote_average with
  | some v => v
  | none => 0

/-- Order induced by an ascending JS comparator `(a, b) => key(a) - key(b)`:
`a` may stay before `b` exactly when the comparator is `≤ 0`. -/
def keyLe {β : Type} [LinearOrder β] (key : Movie → β) (a b : Movie) : Prop :=
  key a ≤ key b

/-- Order induced by a descending JS comparator `(a, b) => key(b) - key(a)`. -/
def keyGe {β : Type} [LinearOrder β] (key : Movie → β) (a b : Movie) : Prop :=
  key b ≤ key a

instance {β : Type} [LinearOrder β] (key : Movie → β) : DecidableRel (keyLe key) :=
  fun a b => inferInstanceAs (Decidable (key a ≤ key b))

instance {β : Type} [LinearOrder β] (key : Movie → β) : DecidableRel (keyGe key) :=
  fun a b => inferInstanceAs (Decidable (key b ≤ key a))

instance {β : Type} [LinearOrder β] (key : Movie → β) : IsTotal Movie (keyLe key) :=
  ⟨fun a b => le_total (key a) (key b)⟩

instance {β : Type} [LinearOrder β] (key : Movie → β) : IsTotal Movie (keyGe key) :=
  ⟨fun a b => le_total (key b) (key a)⟩

instance {β : Type} [LinearOrder β] (key : Movie → β) : IsTrans Movie (keyLe key) :=
  ⟨fun _ _ _ hab hbc => le_trans hab hbc⟩

instance {β : Type} [LinearOrder β] (key : Movie → β) : IsTrans Movie (keyGe key) :=
  ⟨fun _ _ _ hab hbc => le_trans hbc hab⟩

/-- A value read from a field of the parsed JSON response (`data.results`):
either an array of records or a non-array JSON value. -/
inductive JsVal where
  | arr (xs : List Movie)
  | str (s : String)
  | num (q : ℚ)
  | jsBool (b : Bool)
  | null
  | undef
  | obj
deriving DecidableEq

/-- Predicate `Array.isArray`. -/
def isArray : JsVal → Bool
  | .arr _ => true
  | _ => false

/-- Evaluation of `Array.isArray(v) ? v : []`, as both variants guard `data.results`. -/
def resultsList : JsVal → List Movie
  | .arr xs => xs
  | _ => []

/-- How one call of `load` settles, from the point of view of the component:
the fetch and `res.json()` resolve (`success`, carrying `data.results` and
`data.total_pages`), the response is non-ok (`httpError`, making `load` throw
`new Error` with the statused message), or fetch/json reject (`thrown`, with
the rejection's `message`). -/
inductive FetchOutcome where
  | success (results : JsVal) (total_pages : Option Int)
  | httpError (status : Nat)
  | thrown (message : String)
deriving DecidableEq

/-- The message of the error caught by `load`'s catch block. -/
def caughtMessage : FetchOutcome → String
  | .success _ _ => ""
  | .httpError st => "TMDB request failed (" ++ toString st ++ ")"
  | .thrown msg => msg

/-- The unreserved characters of `encodeURIComponent`:
letters, digits, and `- _ . ! ~ * ( )` and the apostrophe (code 39). -/
def uriUnreserved (c : Char) : Bool :=
  c.isAlphanum || c = '-' || c = '_' || c = '.' || c = '!' || c = '~' ||
    c = '*' || c = '(' || c = ')' || c.toNat = 39

/-- Upper-case hexadecimal digit. -/
def hexDigitChar (n : Nat) : Char :=
  ("0123456789ABCDEF".data).getD n '0'

/-- UTF-8 bytes of a code point. -/
def utf8Bytes (n : Nat) : List Nat :=
  if n < 128 then [n]
  else if n < 2048 then [192 + n / 64, 128 + n % 64]
  else if n < 65536 then [224 + n / 4096, 128 + n / 64 % 64, 128 + n % 64]
  else [240 + n / 262144, 128 + n / 4096 % 64, 128 + n / 64 % 64, 128 + n % 64]

/-- Percent-encoding of one byte. -/
def pctByte (b : Nat) : List Char :=
  ['%', hexDigitChar (b / 16), hexDigitChar (b % 16)]

/-- ECMAScript `encodeURIComponent`: unreserved characters pass through,
every other character is percent-encoded byte-wise in UTF-8. -/
def encodeURIComponent (s : String) : String :=
  String.mk (s.data.foldr
    (fun c acc =>
      (if uriUnreserved c then [c]
       else (utf8Bytes c.toNat).foldr (fun b a => pctByte b ++ a) []) ++ acc)
    [])

/-- Constant `IMG_BASE` of both variants. -/
def IMG_BASE : String := "https://image.tmdb.org/t/p/w342"

/-- The placeholder poster URL of both variants. -/
def placeholderPoster : String := "https://via.placeholder.com/342x513?text=No+Poster"

/-- The search endpoint both variants target for a non-empty query. -/
def searchEndpoint : String := "https://api.themoviedb.org/3/search/movie"

/-- The discovery endpoint both variants target for an empty query. -/
def discoverEndpoint : String := "https://api.themoviedb.org/3/discover/movie"

/-- The display record both variants derive for one card: the poster `src`,
its `alt`, the `src` installed by the image's `onError` handler, and the
rendered title and release-date texts. -/
structure DisplayRecord where
  imageSrc : String
  imageAlt : String
  imageErrorSrc : String
  titleText : String
  releaseText : String
deriving DecidableEq

namespace MovieA

/-!
Embedding of `src/src/components/Movie.js`.
-/

/-- The component's state hooks: `movies`, `page`, `searchInput`, `query`
(the submitted query), `sort`, `loading`, `error`. -/
structure State where
  movies : List Movie
  page : Int
  searchInput : String
  query : String
  sort : String
  loading : Bool
  error : String
deriving DecidableEq

/-- The `useState` initial values: `[]`, `1`, `""`, `""`, `"release_desc"`,
`false`, `""`. -/
def init : State :=
  { movies := [], page := 1, searchInput := "", query := "",
    sort := "release_desc", loading := false, error := "" }

/-- The synchronous prefix of `load`, run when the effect launches a fetch:
`setLoading(true); setError("")`. -/
def loadStart (s : State) : State :=
  { s with loading := true, error := "" }

/-- Function `load`'s URL construction: the search endpoint when `query.trim().length
> 0` (with `encodeURIComponent(query)`), else the discovery endpoint; both
carry `page` and `include_adult=false`. -/
def buildUrl (apiKey query : String) (page : Int) : String :=
  if (jsTrim query).length > 0 then
    "https://api.themoviedb.org/3/search/movie?api_key=" ++ apiKey ++
      "&query=" ++ encodeURIComponent query ++ "&page=" ++ toString page ++
      "&include_adult=false"
  else
    "https://api.themoviedb.org/3/discover/movie?api_key=" ++ apiKey ++
      "&page=" ++ toString page ++ "&include_adult=false"

/-- The state updates `load` performs once the fetch settles.  Every update
is guarded by the closure-captured `cancelled` flag (set by the effect's
cleanup): `if (!cancelled) setMovies(...)`, `if (!cancelled) setError(...)`,
`if (!cancelled) setLoading(false)`.  On success `setMovies` stores
`Array.isArray(data.results) ? data.results : []`; the catch block stores
`e.message || "Something went wrong."`. -/
def loadResolve (cancelled : Bool) (o : FetchOutcome) (s : State) : State :=
  if cancelled then s
  else
    match o with
    | .success results _ =>
      { s with movies := resultsList results, loading := false }
    | .httpError _ =>
      { s with error := jsOrStr (caughtMessage o) "Something went wrong.",
               loading := false }
    | .thrown _ =>
      { s with error := jsOrStr (caughtMessage o) "Something went wrong.",
               loading := false }

/-- A complete, never-superseded run of `load`: the synchronous prefix
followed by the resolution with the `cancelled` flag still `false`. -/
def loadAttempt (o : FetchOutcome) (s : State) : State :=
  loadResolve false o (loadStart s)

/-- The user and runtime events that mutate the component's state. -/
inductive Action where
  | setSearchInput (v : String)
  | submit
  | clear
  | selectSort (k : String)
  | prevClick
  | nextClick
  | launch
  | resolve (cancelled : Bool) (o : FetchOutcome)

/-- One state transition per event: typing (`setSearchInput`), `handleSubmit`
(`setPage(1); setQuery(searchInput.trim())`), `handleClear`
(`setSearchInput(""); setQuery(""); setPage(1)`), the sort select's
`onChange`, the pager's `setPage(p => Math.max(1, p - 1))` and
`setPage(p => p + 1)`, an effect run's synchronous prefix, and a fetch
resolution. -/
def step : Action → State → State
  | .setSearchInput v, s => { s with searchInput := v }
  | .submit, s => { s with page := 1, query := jsTrim s.searchInput }
  | .clear, s => { s with searchInput := "", query := "", page := 1 }
  | .selectSort k, s => { s with sort := k }
  | .prevClick, s => { s with page := max 1 (s.page - 1) }
  | .nextClick, s => { s with page := s.page + 1 }
  | .launch, s => loadStart s
  | .resolve c o, s => loadResolve c o s

/-- States reachable from the initial render. -/
inductive Reachable : State → Prop where
  | init : Reachable init
  | step (a : Action) {s : State} : Reachable s → Reachable (step a s)

/-- The effect's dependency array, `[page, query]`. -/
def deps (s : State) : Int × String := (s.page, s.query)

/-- React re-runs the effect — launching a new fetch — exactly when some
entry of the dependency array changed between renders. -/
def launchesFetch (s sNext : State) : Bool :=
  decide (deps sNext ≠ deps s)

/-- Memo `sortedMovies`: a copy of `movies` sorted by the `switch` on `sort`.
`[...movies].sort(cmp)` is ECMAScript's stable sort, whose output for these
consistent comparators is the unique stable `cmp`-ordering of the input; it
is embedded as `List.insertionSort`, which Mathlib proves sorted and stable.
The ascending comparator `(a, b) => dateVal(a) - dateVal(b)` induces the
order `keyLe dateVal`; descending comparators induce `keyGe`. -/
def sortedMovies (sort : String) (movies : List Movie) : List Movie :=
  if sort = "release_asc" then movies.insertionSort (keyLe dateVal)
  else if sort = "release_desc" then movies.insertionSort (keyGe dateVal)
  else if sort = "rating_asc" then movies.insertionSort (keyLe ratingVal)
  else if sort = "rating_desc" then movies.insertionSort (keyGe ratingVal)
  else movies

/-- The card markup for one record: `src={m.poster_path ? IMG_BASE +
m.poster_path : ""}`, `alt={m.title || "Movie poster"}`, the `onError`
handler's placeholder, `{m.title || "Untitled"}`, and
`{m.release_date || "Unknown"}`. -/
def display (m : Movie) : DisplayRecord :=
  { imageSrc :=
      match m.poster_path with
      | some sp => if sp = "" then "" else IMG_BASE ++ sp
      | none => ""
    imageAlt := jsOr m.title "Movie poster"
    imageErrorSrc := placeholderPoster
    titleText := jsOr m.title "Untitled"
    releaseText := jsOr m.release_date "Unknown" }

/-- The Previous button's `disabled={page === 1 || loading}`. -/
def prevDisabled (s : State) : Bool :=
  (s.page == 1) || s.loading

/-- The Next button's `disabled={loading}` (this variant stores no
total-page count). -/
def nextDisabled (s : State) : Bool :=
  s.loading

end MovieA

namespace MovieB

/-!
Embedding of `src/unnamed/part_000`.
-/

/-- The component's state hooks; this variant additionally stores
`totalPages`. -/
structure State where
  movies : List Movie
  page : Int
  totalPages : Int
  searchInput : String
  query : String
  sort : String
  loading : Bool
  error : String
deriving DecidableEq

/-- The `useState` initial values: `[]`, `1`, `0`, `""`, `""`, `""`,
`false`, `""`. -/
def init : State :=
  { movies := [], page := 1, totalPages := 0, searchInput := "", query := "",
    sort := "", loading := false, error := "" }

/-- The synchronous prefix of `load`: `setLoading(true); setError("")`. -/
def loadStart (s : State) : State :=
  { s with loading := true, error := "" }

/-- Function `load`'s URL construction: the search endpoint when `query.trim().length
> 0`; else the discovery endpoint, with `&sort_by=` appended when `sort` is
truthy. -/
def buildUrl (apiKey query sort : String) (page : Int) : String :=
  if (jsTrim query).length > 0 then
    "https://api.themoviedb.org/3/search/movie?api_key=" ++ apiKey ++
      "&query=" ++ encodeURIComponent query ++ "&page=" ++ toString page ++
      "&include_adult=false"
  else
    "https://api.themoviedb.org/3/discover/movie?api_key=" ++ apiKey ++
      "&page=" ++ toString page ++ "&include_adult=false" ++
      (if sort = "" then "" else "&sort_by=" ++ sort)

/-- The state updates `load` performs once the fetch settles, each guarded
by the closure-captured `cancelled` flag.  On success this variant also
stores `setTotalPages(data.total_pages || 0)`. -/
def loadResolve (cancelled : Bool) (o : FetchOutcome) (s : State) : State :=
  if cancelled then s
  else
    match o with
    | .success results total_pages =>
      { s with movies := resultsList results,
               totalPages := total_pages.getD 0, loading := false }
    | .httpError _ =>
      { s with error := jsOrStr (caughtMessage o) "Something went wrong.",
               loading := false }
    | .thrown _ =>
      { s with error := jsOrStr (caughtMessage o) "Something went wrong.",
               loading := false }

/-- A complete, never-superseded run of `load`. -/
def loadAttempt (o : FetchOutcome) (s : State) : State :=
  loadResolve false o (loadStart s)

/-- The user and runtime events that mutate the component's state; this
variant has no submit or clear buttons — the input's `onChange` and
`onKeyPress` drive the query. -/
inductive Action where
  | setSearchInput (v : String)
  | keyDown (key : String)
  | selectSort (k : String)
  | prevClick
  | nextClick
  | launch
  | resolve (cancelled : Bool) (o : FetchOutcome)

/-- One state transition per event: `handleSearchInputChange` stores the
text and, when its trim is empty, also `setQuery(""); setPage(1)`;
`handleKeyPress` on Enter does `setPage(1); setQuery(searchInput.trim())`;
the rest as in the other variant. -/
def step : Action → State → State
  | .setSearchInput v, s =>
    if jsTrim v = "" then { s with searchInput := v, query := "", page := 1 }
    else { s with searchInput := v }
  | .keyDown key, s =>
    if key = "Enter" then { s with page := 1, query := jsTrim s.searchInput }
    else s
  | .selectSort k, s => { s with sort := k }
  | .prevClick, s => { s with page := max 1 (s.page - 1) }
  | .nextClick, s => { s with page := s.page + 1 }
  | .launch, s => loadStart s
  | .resolve c o, s => loadResolve c o s

/-- States reachable from the initial render. -/
inductive Reachable : State → Prop where
  | init : Reachable init
  | step (a : Action) {s : State} : Reachable s → Reachable (step a s)

/-- The effect's dependency array, `[page, query, sort]`. -/
def deps (s : State) : Int × String × String := (s.page, s.query, s.sort)

/-- React re-runs the effect — launching a new fetch — exactly when some
entry of the dependency array changed between renders. -/
def launchesFetch (s sNext : State) : Bool :=
  decide (deps sNext ≠ deps s)

/-- Memo `sortedMovies`: `if (!query || !sort) return movies;` then a copy of
`movies` sorted by the `switch` on `sort` (stable sort, embedded as
`List.insertionSort` as in the other variant). -/
def sortedMovies (query sort : String) (movies : List Movie) : List Movie :=
  if query = "" ∨ sort = "" then movies
  else if sort = "release_date.asc" then movies.insertionSort (keyLe dateVal)
  else if sort = "release_date.desc" then movies.insertionSort (keyGe dateVal)
  else if sort = "vote_average.asc" then movies.insertionSort (keyLe ratingVal)
  else if sort = "vote_average.desc" then movies.insertionSort (keyGe ratingVal)
  else movies

/-- The card markup for one record: this variant substitutes the placeholder
directly, `src={movie.poster_path ? IMG_BASE + movie.poster_path :
placeholder}`, with the same `onError` handler and text fallbacks. -/
def display (m : Movie) : DisplayRecord :=
  { imageSrc :=
      match m.poster_path with
      | some sp => if sp = "" then placeholderPoster else IMG_BASE ++ sp
      | none => placeholderPoster
    imageAlt := jsOr m.title "Movie poster"
    imageErrorSrc := placeholderPoster
    titleText := jsOr m.title "Untitled"
    releaseText := jsOr m.release_date "Unknown" }

/-- The Previous button's `disabled={page === 1 || loading}`. -/
def prevDisabled (s : State) : Bool :=
  (s.page == 1) || s.loading

/-- The Next button's `disabled={loading || (totalPages > 0 && page >=
totalPages)}`. -/
def nextDisabled (s : State) : Bool :=
  s.loading || (decide (0 < s.totalPages) && decide (s.totalPages ≤ s.page))

end MovieB

/-- A record with every optional field absent, exercising the fallback
paths. -/
def mBare : Movie :=
  { id := 7, title := none, release_date := none, vote_average := none,
    poster_path := none }

/-- A second all-defaults record, distinguishable from `mBare` only by id. -/
def mBare2 : Movie :=
  { id := 8, title := none, release_date := none, vote_average := none,
    poster_path := none }

/-- A record dated before the Unix epoch. -/
def m1960 : Movie :=
  { id := 1, title := some "Old", release_date := some "1960-01-01",
    vote_average := some 5, poster_path := none }

/-- A record dated after the Unix epoch. -/
def m2020 : Movie :=
  { id := 2, title := some "New", release_date := some "2020-01-01",
    vote_average := some 7, poster_path := none }

/-- Comparison keys of the `Movie.js` sort switch: both date cases compare
`dateVal`, both rating cases compare `ratingVal`, the default case compares
nothing. -/
def keysEqualA (k : String) (a b : Movie) : Prop :=
  if k = "release_asc" ∨ k = "release_desc" then dateVal a = dateVal b
  else if k = "rating_asc" ∨ k = "rating_desc" then ratingVal a = ratingVal b
  else True

/-- Comparison keys of the `part_000` sort switch. -/
def keysEqualB (k : String) (a b : Movie) : Prop :=
  if k = "release_date.asc" ∨ k = "release_date.desc" then dateVal a = dateVal b
  else if k = "vote_average.asc" ∨ k = "vote_average.desc" then ratingVal a = ratingVal b
  else True

/-!
Claim theorems.
-/

/-- In a list sorted by an ascending key order, an element with a strictly
smaller key sits at a strictly smaller position. -/
lemma lt_of_sorted_keyLe {β : Type} [LinearOrder β] {key : Movie → β}
    {out : List Movie} (hs : List.Sorted (keyLe key) out) {i j : Fin out.length}
    (h : key (out.get i) < key (out.get j)) : i < j := by
  by_contra hle
  push_neg at hle
  rcases eq_or_lt_of_le hle with he | hlt
  · rw [he] at h
    exact lt_irrefl _ h
  · exact absurd (hs.rel_get_of_lt hlt) (not_le.mpr h)

/-- In a list sorted by a descending key order, an element with a strictly
smaller key sits at a strictly larger position. -/
lemma gt_of_sorted_keyGe {β : Type} [LinearOrder β] {key : Movie → β}
    {out : List Movie} (hs : List.Sorted (keyGe key) out) {i j : Fin out.length}
    (h : key (out.get i) < key (out.get j)) : j < i := by
  by_contra hle
  push_neg at hle
  rcases eq_or_lt_of_le hle with he | hlt
  · rw [he] at h
    exact lt_irrefl _ h
  · exact absurd (hs.rel_get_of_lt hlt) (not_le.mpr h)

/-- Variant `Movie.js`'s ascending date sort output is sorted by `keyLe dateVal`. -/
lemma sortedA_release_asc (l : List Movie) :
    List.Sorted (keyLe dateVal) (MovieA.sortedMovies "release_asc" l) := by
  have he : MovieA.sortedMovies "release_asc" l
      = List.insertionSort (keyLe dateVal) l := by
    simp [MovieA.sortedMovies]
  rw [he]
  exact List.sorted_insertionSort _ _

/-- Variant `Movie.js`'s descending date sort output is sorted by `keyGe dateVal`. -/
lemma sortedA_release_desc (l : List Movie) :
    List.Sorted (keyGe dateVal) (MovieA.sortedMovies "release_desc" l) := by
  have he : MovieA.sortedMovies "release_desc" l
      = List.insertionSort (keyGe dateVal) l := by
    simp [MovieA.sortedMovies]
  rw [he]
  exact List.sorted_insertionSort _ _

/-- Variant `part_000`'s ascending date sort output is sorted when a query is
active. -/
lemma sortedB_release_asc (q : String) (l : List Movie) (hq : q ≠ "") :
    List.Sorted (keyLe dateVal) (MovieB.sortedMovies q "release_date.asc" l) := by
  have he : MovieB.sortedMovies q "release_date.asc" l
      = List.insertionSort (keyLe dateVal) l := by
    simp [MovieB.sortedMovies, hq]
  rw [he]
  exact List.sorted_insertionSort _ _

/-- Variant `part_000`'s descending date sort output is sorted when a query is
active. -/
lemma sortedB_release_desc (q : String) (l : List Movie) (hq : q ≠ "") :
    List.Sorted (keyGe dateVal) (MovieB.sortedMovies q "release_date.desc" l) := by
  have he : MovieB.sortedMovies q "release_date.desc" l
      = List.insertionSort (keyGe dateVal) l := by
    simp [MovieB.sortedMovies, hq]
  rw [he]
  exact List.sorted_insertionSort _ _

/-- C1: a fetch resolution whose closure-captured `cancelled` flag was set by
the effect cleanup leaves the state unchanged, so in the overlapping scenario
(launch X, launch Y — cancelling X —, Y resolves, then X resolves) the final
state is exactly the state of a lone run of Y: movies, error and loading
reflect only Y's outcome, in both variants. -/
theorem claim_C1 :
  (∀ (s : MovieA.State) (o : FetchOutcome), MovieA.loadResolve true o s = s)
  ∧ (∀ (s : MovieB.State) (o : FetchOutcome), MovieB.loadResolve true o s = s)
  ∧ (∀ (s : MovieA.State) (oX oY : FetchOutcome),
      MovieA.loadResolve true oX
        (MovieA.loadResolve false oY (MovieA.loadStart (MovieA.loadStart s)))
        = MovieA.loadAttempt oY s)
  ∧ (∀ (s : MovieB.State) (oX oY : FetchOutcome),
      MovieB.loadResolve true oX
        (MovieB.loadResolve false oY (MovieB.loadStart (MovieB.loadStart s)))
        = MovieB.loadAttempt oY s) := by
  refine ⟨fun s o => rfl, fun s o => rfl, fun s oX oY => ?_, fun s oX oY => ?_⟩
  · cases oY <;> rfl
  · cases oY <;> rfl

/-- C2 counterexample: in the `part_000` variant, `sort` is in the effect
dependency array, so changing only the sort key from the initial state does
launch a new fetch — refuting the claim that changing `sortKey` never
triggers one. -/
theorem claim_C2_cex :
  MovieB.launchesFetch MovieB.init
      (MovieB.step (.selectSort "release_date.asc") MovieB.init) = true := by
  decide

/-- C2 (amended): in the `Movie.js` variant, whose effect dependency array is
`[page, query]`, changing only the sort key never launches a fetch and leaves
movies, loading and error unchanged; in the `part_000` variant, whose
dependency array is `[page, query, sort]`, changing the sort key to a
different value always launches a new fetch. -/
theorem claim_C2 :
  (∀ (s : MovieA.State) (k : String),
     MovieA.launchesFetch s (MovieA.step (.selectSort k) s) = false
     ∧ (MovieA.step (.selectSort k) s).movies = s.movies
     ∧ (MovieA.step (.selectSort k) s).loading = s.loading
     ∧ (MovieA.step (.selectSort k) s).error = s.error)
  ∧ (∀ (s : MovieB.State) (k : String), k ≠ s.sort →
     MovieB.launchesFetch s (MovieB.step (.selectSort k) s) = true) := by
  constructor
  · intro s k
    refine ⟨?_, rfl, rfl, rfl⟩
    simp [MovieA.launchesFetch, MovieA.deps, MovieA.step]
  · intro s k h
    have hd : MovieB.deps (MovieB.step (.selectSort k) s) ≠ MovieB.deps s := by
      intro he
      exact h (congrArg (fun t => t.2.2) he)
    simpa [MovieB.launchesFetch] using hd

/-- C2 witness: the amended claim at the initial `part_000` state and the
sort key `release_date.asc`. -/
theorem claim_C2_witness :
  ("release_date.asc" : String) ≠ MovieB.init.sort
  ∧ MovieB.launchesFetch MovieB.init
      (MovieB.step (.selectSort "release_date.asc") MovieB.init) = true :=
  ⟨by decide, claim_C2.2 MovieB.init "release_date.asc" (by decide)⟩

/-- C3: for every API key, query and page, the built request URL is the
search endpoint's URL — carrying the URL-escaped query and the page — exactly
when the trimmed query is non-empty, and the discovery endpoint's URL —
carrying the page (and, in `part_000`, the optional `sort_by` parameter) —
otherwise; no URL extends both endpoints, so exactly one is targeted. -/
theorem claim_C3 :
  (∀ (k q : String) (p : Int), 0 < (jsTrim q).length →
     MovieA.buildUrl k q p =
       searchEndpoint ++ ("?api_key=" ++ k ++ "&query=" ++ encodeURIComponent q ++
         "&page=" ++ toString p ++ "&include_adult=false"))
  ∧ (∀ (k q : String) (p : Int), (jsTrim q).length = 0 →
     MovieA.buildUrl k q p =
       discoverEndpoint ++ ("?api_key=" ++ k ++ "&page=" ++ toString p ++
         "&include_adult=false"))
  ∧ (∀ (k q sort : String) (p : Int), 0 < (jsTrim q).length →
     MovieB.buildUrl k q sort p =
       searchEndpoint ++ ("?api_key=" ++ k ++ "&query=" ++ encodeURIComponent q ++
         "&page=" ++ toString p ++ "&include_adult=false"))
  ∧ (∀ (k q sort : String) (p : Int), (jsTrim q).length = 0 →
     MovieB.buildUrl k q sort p =
       discoverEndpoint ++ ("?api_key=" ++ k ++ "&page=" ++ toString p ++
         "&include_adult=false" ++ (if sort = "" then "" else "&sort_by=" ++ sort)))
  ∧ (∀ s t : String, searchEndpoint ++ s ≠ discoverEndpoint ++ t) := by
  refine ⟨fun k q p h => ?_, fun k q p h => ?_, fun k q sort p h => ?_,
    fun k q sort p h => ?_, fun s t h => ?_⟩
  · rw [MovieA.buildUrl, if_pos h,
      show ("https://api.themoviedb.org/3/search/movie?api_key=" : String)
        = searchEndpoint ++ "?api_key=" from rfl]
    simp [String.append_assoc]
  · rw [MovieA.buildUrl, if_neg (by omega),
      show ("https://api.themoviedb.org/3/discover/movie?api_key=" : String)
        = discoverEndpoint ++ "?api_key=" from rfl]
    simp [String.append_assoc]
  · rw [MovieB.buildUrl, if_pos h,
      show ("https://api.themoviedb.org/3/search/movie?api_key=" : String)
        = searchEndpoint ++ "?api_key=" from rfl]
    simp [String.append_assoc]
  · rw [MovieB.buildUrl, if_neg (by omega),
      show ("https://api.themoviedb.org/3/discover/movie?api_key=" : String)
        = discoverEndpoint ++ "?api_key=" from rfl]
    simp [String.append_assoc]
  · have h2 : (searchEndpoint.data ++ s.data)[29]? =
        (discoverEndpoint.data ++ t.data)[29]? := by
      rw [← String.data_append, ← String.data_append, h]
    rw [List.getElem?_append_left (by decide),
      List.getElem?_append_left (by decide)] at h2
    exact absurd h2 (by decide)

/-- C3 witness: a non-empty query targets the search endpoint with the query
escaped, an empty one targets discovery with the sort parameter. -/
theorem claim_C3_witness :
  (0 < (jsTrim "star wars").length
    ∧ MovieA.buildUrl "KEY" "star wars" 2 =
        searchEndpoint ++ ("?api_key=" ++ "KEY" ++ "&query=" ++
          encodeURIComponent "star wars" ++ "&page=" ++ toString (2 : Int) ++
          "&include_adult=false"))
  ∧ ((jsTrim "").length = 0
    ∧ MovieB.buildUrl "KEY" "" "release_date.asc" 3 =
        discoverEndpoint ++ ("?api_key=" ++ "KEY" ++ "&page=" ++ toString (3 : Int) ++
          "&include_adult=false" ++
          (if ("release_date.asc" : String) = "" then ""
           else "&sort_by=" ++ "release_date.asc"))) :=
  ⟨⟨by decide, claim_C3.1 "KEY" "star wars" 2 (by decide)⟩,
   ⟨by decide, claim_C3.2.2.2.1 "KEY" "" "release_date.asc" 3 (by decide)⟩⟩

/-- C6: Previous is disabled exactly at page 1 or while loading (both
variants); Next is disabled exactly while loading in `Movie.js` (which never
stores a total-page count) and, in `part_000`, exactly while loading or when
a positive stored `totalPages` has been reached. -/
theorem claim_C6 :
  (∀ s : MovieA.State,
     (MovieA.prevDisabled s = true ↔ (s.page = 1 ∨ s.loading = true))
     ∧ (MovieA.nextDisabled s = true ↔ s.loading = true))
  ∧ (∀ s : MovieB.State,
     (MovieB.prevDisabled s = true ↔ (s.page = 1 ∨ s.loading = true))
     ∧ (MovieB.nextDisabled s = true ↔
        (s.loading = true ∨ (0 < s.totalPages ∧ s.totalPages ≤ s.page)))) := by
  constructor <;> intro s <;>
    simp [MovieA.prevDisabled, MovieA.nextDisabled, MovieB.prevDisabled,
      MovieB.nextDisabled]

/-- C7: in every reachable state of either variant the page number is at
least 1, and every transition that changes the submitted query sets the page
number to 1. -/
theorem claim_C7 :
  (∀ s : MovieA.State, MovieA.Reachable s → 1 ≤ s.page)
  ∧ (∀ (a : MovieA.Action) (s : MovieA.State),
      (MovieA.step a s).query ≠ s.query → (MovieA.step a s).page = 1)
  ∧ (∀ s : MovieB.State, MovieB.Reachable s → 1 ≤ s.page)
  ∧ (∀ (a : MovieB.Action) (s : MovieB.State),
      (MovieB.step a s).query ≠ s.query → (MovieB.step a s).page = 1) := by
  refine ⟨?_, ?_, ?_, ?_⟩
  · intro s hs
    induction hs with
    | init => decide
    | step a _ ih =>
      cases a with
      | prevClick => exact le_max_left 1 _
      | nextClick =>
        simp only [MovieA.step]
        omega
      | resolve c o =>
        cases c
        · cases o <;> exact ih
        · exact ih
      | _ => first | exact ih | simp [MovieA.step]
  · intro a s h
    cases a with
    | resolve c o =>
      exfalso; apply h
      cases c
      · cases o <;> rfl
      · rfl
    | _ => first | rfl | (exfalso; exact h rfl)
  · intro s hs
    induction hs with
    | init => decide
    | step a _ ih =>
      cases a with
      | setSearchInput v =>
        simp only [MovieB.step]
        split
        · simp
        · exact ih
      | keyDown key =>
        simp only [MovieB.step]
        split
        · simp
        · exact ih
      | prevClick => exact le_max_left 1 _
      | nextClick =>
        simp only [MovieB.step]
        omega
      | resolve c o =>
        cases c
        · cases o <;> exact ih
        · exact ih
      | _ => exact ih
  · intro a s h
    cases a with
    | setSearchInput v =>
      by_cases hv : jsTrim v = ""
      · simp [MovieB.step, hv]
      · simp [MovieB.step, hv] at h
    | keyDown key =>
      by_cases hk : key = "Enter"
      · simp [MovieB.step, hk]
      · simp [MovieB.step, hk] at h
    | resolve c o =>
      exfalso; apply h
      cases c
      · cases o <;> rfl
      · rfl
    | _ => first | rfl | (exfalso; exact h rfl)

/-- C7 witness: the invariant at the initial states, and a concrete
query-changing transition (`handleClear` from a searched state, the Enter key
in `part_000`) resetting the page to 1. -/
theorem claim_C7_witness :
  1 ≤ MovieA.init.page
  ∧ 1 ≤ MovieB.init.page
  ∧ ((MovieA.step .clear
        { MovieA.init with query := "batman", page := 4 }).query
      ≠ ({ MovieA.init with query := "batman", page := 4 } : MovieA.State).query
    ∧ (MovieA.step .clear { MovieA.init with query := "batman", page := 4 }).page = 1)
  ∧ ((MovieB.step (.keyDown "Enter")
        { MovieB.init with searchInput := "batman", page := 4 }).query
      ≠ ({ MovieB.init with searchInput := "batman", page := 4 } : MovieB.State).query
    ∧ (MovieB.step (.keyDown "Enter")
        { MovieB.init with searchInput := "batman", page := 4 }).page = 1) :=
  ⟨claim_C7.1 MovieA.init MovieA.Reachable.init,
   claim_C7.2.2.1 MovieB.init MovieB.Reachable.init,
   ⟨by decide,
    claim_C7.2.1 .clear { MovieA.init with query := "batman", page := 4 } (by decide)⟩,
   ⟨by decide,
    claim_C7.2.2.2 (.keyDown "Enter")
      { MovieB.init with searchInput := "batman", page := 4 } (by decide)⟩⟩

/-- C8: a never-superseded run of `load` always clears the loading flag, and
settles in exactly one of two ways: success stores the results (and, in
`part_000`, the page bound `data.total_pages || 0`) with the error cleared by
the attempt's start; failure (non-ok status or thrown transport error) stores
a non-empty error message and leaves the stored movies unchanged. -/
theorem claim_C8 :
  (∀ (s : MovieA.State) (o : FetchOutcome),
     (MovieA.loadAttempt o s).loading = false
     ∧ (∀ r tp, o = .success r tp →
         (MovieA.loadAttempt o s).movies = resultsList r
         ∧ (MovieA.loadAttempt o s).error = "")
     ∧ (∀ st, o = .httpError st →
         (MovieA.loadAttempt o s).error = "TMDB request failed (" ++ toString st ++ ")"
         ∧ (MovieA.loadAttempt o s).error ≠ ""
         ∧ (MovieA.loadAttempt o s).movies = s.movies)
     ∧ (∀ msg, o = .thrown msg →
         (MovieA.loadAttempt o s).error = jsOrStr msg "Something went wrong."
         ∧ (MovieA.loadAttempt o s).error ≠ ""
         ∧ (MovieA.loadAttempt o s).movies = s.movies))
  ∧ (∀ (s : MovieB.State) (o : FetchOutcome),
     (MovieB.loadAttempt o s).loading = false
     ∧ (∀ r tp, o = .success r tp →
         (MovieB.loadAttempt o s).movies = resultsList r
         ∧ (MovieB.loadAttempt o s).totalPages = tp.getD 0
         ∧ (MovieB.loadAttempt o s).error = "")
     ∧ (∀ st, o = .httpError st →
         (MovieB.loadAttempt o s).error = "TMDB request failed (" ++ toString st ++ ")"
         ∧ (MovieB.loadAttempt o s).error ≠ ""
         ∧ (MovieB.loadAttempt o s).movies = s.movies)
     ∧ (∀ msg, o = .thrown msg →
         (MovieB.loadAttempt o s).error = jsOrStr msg "Something went wrong."
         ∧ (MovieB.loadAttempt o s).error ≠ ""
         ∧ (MovieB.loadAttempt o s).movies = s.movies)) := by
  constructor <;> intro s o <;>
    refine ⟨?_, ?_, ?_, ?_⟩ <;>
    first
      | (cases o <;> rfl)
      | (rintro _ _ rfl; first | exact ⟨rfl, rfl⟩ | exact ⟨rfl, rfl, rfl⟩)
      | (rintro st rfl
         refine ⟨rfl, ?_, rfl⟩
         simp only [MovieA.loadAttempt, MovieA.loadResolve, MovieA.loadStart,
                    MovieB.loadAttempt, MovieB.loadResolve, MovieB.loadStart,
                    caughtMessage, jsOrStr]
         split <;> (try split) <;> simp_all)

/-- C8 witness: the theorem applied to a concrete success and a concrete
HTTP failure in the `Movie.js` variant. -/
theorem claim_C8_witness :
  ((MovieA.loadAttempt (.success (.arr []) none) MovieA.init).movies
      = resultsList (.arr [])
    ∧ (MovieA.loadAttempt (.success (.arr []) none) MovieA.init).error = "")
  ∧ ((MovieA.loadAttempt (.httpError 404) MovieA.init).error
      = "TMDB request failed (" ++ toString (404 : Nat) ++ ")"
    ∧ (MovieA.loadAttempt (.httpError 404) MovieA.init).error ≠ ""
    ∧ (MovieA.loadAttempt (.httpError 404) MovieA.init).movies = MovieA.init.movies) :=
  ⟨(claim_C8.1 MovieA.init (.success (.arr []) none)).2.1 (.arr []) none rfl,
   (claim_C8.1 MovieA.init (.httpError 404)).2.2.1 404 rfl⟩

/-- C9 counterexample: in the `Movie.js` variant a record without a poster
path renders with an empty image `src`, not the placeholder URL — refuting
the claim that the display record substitutes a placeholder image reference
when `posterPath` is absent. -/
theorem claim_C9_cex :
  (MovieA.display mBare).imageSrc = "" ∧
    (MovieA.display mBare).imageSrc ≠ placeholderPoster := by
  decide

/-- C9 (amended): for a record whose poster path is falsy, `part_000`
substitutes the placeholder reference directly while `Movie.js` renders an
empty `src` and installs the placeholder only through the image `onError`
handler; both variants substitute "Untitled" for a falsy title and "Unknown"
for a falsy release date. -/
theorem claim_C9 :
  (∀ m : Movie, jsTruthy m.poster_path = false →
     (MovieB.display m).imageSrc = placeholderPoster
     ∧ (MovieA.display m).imageSrc = ""
     ∧ (MovieA.display m).imageErrorSrc = placeholderPoster)
  ∧ (∀ m : Movie, jsTruthy m.title = false →
     (MovieA.display m).titleText = "Untitled"
     ∧ (MovieB.display m).titleText = "Untitled")
  ∧ (∀ m : Movie, jsTruthy m.release_date = false →
     (MovieA.display m).releaseText = "Unknown"
     ∧ (MovieB.display m).releaseText = "Unknown") := by
  refine ⟨fun m h => ?_, fun m h => ?_, fun m h => ?_⟩ <;>
    (cases hm : m.poster_path <;> cases ht : m.title <;> cases hr : m.release_date <;>
      simp_all [MovieA.display, MovieB.display, jsTruthy, jsOr])

/-- C9 witness: the amended claim at a record with all optional fields
absent. -/
theorem claim_C9_witness :
  jsTruthy mBare.poster_path = false
  ∧ (MovieB.display mBare).imageSrc = placeholderPoster
  ∧ (MovieA.display mBare).imageSrc = ""
  ∧ (MovieA.display mBare).imageErrorSrc = placeholderPoster
  ∧ (MovieA.display mBare).titleText = "Untitled"
  ∧ (MovieA.display mBare).releaseText = "Unknown" :=
  ⟨by decide, (claim_C9.1 mBare (by decide)).1, (claim_C9.1 mBare (by decide)).2.1,
    (claim_C9.1 mBare (by decide)).2.2, (claim_C9.2.1 mBare (by decide)).1,
    (claim_C9.2.2 mBare (by decide)).1⟩

/-- C10: whatever JSON value the `results` field holds, the stored movie list
is that value when it is an array and the empty list otherwise, in both
variants — the stored ResultSet is always a list. -/
theorem claim_C10 :
  (∀ (s : MovieA.State) (v : JsVal) (tp : Option Int),
     (isArray v = false → (MovieA.loadAttempt (.success v tp) s).movies = [])
     ∧ (∀ xs, v = .arr xs → (MovieA.loadAttempt (.success v tp) s).movies = xs))
  ∧ (∀ (s : MovieB.State) (v : JsVal) (tp : Option Int),
     (isArray v = false → (MovieB.loadAttempt (.success v tp) s).movies = [])
     ∧ (∀ xs, v = .arr xs → (MovieB.loadAttempt (.success v tp) s).movies = xs)) := by
  constructor <;>
    (intro s v tp
     constructor
     · intro h
       cases v <;> simp_all [MovieA.loadAttempt, MovieA.loadResolve,
         MovieB.loadAttempt, MovieB.loadResolve, isArray, resultsList,
         MovieA.loadStart, MovieB.loadStart]
     · rintro xs rfl
       rfl)

/-- C10 witness: a malformed (string-valued) `results` field stores the empty
list; an array-valued one stores exactly that array. -/
theorem claim_C10_witness :
  (isArray (.str "oops") = false
    ∧ (MovieA.loadAttempt (.success (.str "oops") none) MovieA.init).movies = [])
  ∧ (MovieB.loadAttempt (.success (.arr [mBare]) (some 5)) MovieB.init).movies
      = [mBare] :=
  ⟨⟨by decide, (claim_C10.1 MovieA.init (.str "oops") none).1 (by decide)⟩,
   (claim_C10.2 MovieB.init (.arr [mBare]) (some 5)).2 [mBare] rfl⟩

/-- C4: under every sort key, two records with equal comparison keys keep
their relative order from the input list (the sort is stable), in both
variants. -/
theorem claim_C4 :
  (∀ (k : String) (l : List Movie) (a b : Movie),
     [a, b].Sublist l → keysEqualA k a b →
     [a, b].Sublist (MovieA.sortedMovies k l))
  ∧ (∀ (q k : String) (l : List Movie) (a b : Movie),
     [a, b].Sublist l → keysEqualB k a b →
     [a, b].Sublist (MovieB.sortedMovies q k l)) := by
  constructor
  · intro k l a b hsub hkey
    unfold MovieA.sortedMovies
    split_ifs with h1 h2 h3 h4
    · have hd : dateVal a = dateVal b := by simp_all [keysEqualA]
      exact List.pair_sublist_insertionSort hd.le hsub
    · have hd : dateVal a = dateVal b := by simp_all [keysEqualA]
      exact List.pair_sublist_insertionSort hd.ge hsub
    · have hd : ratingVal a = ratingVal b := by simp_all [keysEqualA]
      exact List.pair_sublist_insertionSort hd.le hsub
    · have hd : ratingVal a = ratingVal b := by simp_all [keysEqualA]
      exact List.pair_sublist_insertionSort hd.ge hsub
    · exact hsub
  · intro q k l a b hsub hkey
    unfold MovieB.sortedMovies
    split_ifs with h0 h1 h2 h3 h4
    · exact hsub
    · have hd : dateVal a = dateVal b := by simp_all [keysEqualB]
      exact List.pair_sublist_insertionSort hd.le hsub
    · have hd : dateVal a = dateVal b := by simp_all [keysEqualB]
      exact List.pair_sublist_insertionSort hd.ge hsub
    · have hd : ratingVal a = ratingVal b := by simp_all [keysEqualB]
      exact List.pair_sublist_insertionSort hd.le hsub
    · have hd : ratingVal a = ratingVal b := by simp_all [keysEqualB]
      exact List.pair_sublist_insertionSort hd.ge hsub
    · exact hsub

/-- C4 witness: two records both missing their release date keep their input
order under the ascending date sort. -/
theorem claim_C4_witness :
  [mBare, mBare2].Sublist [mBare, mBare2]
  ∧ keysEqualA "release_asc" mBare mBare2
  ∧ [mBare, mBare2].Sublist (MovieA.sortedMovies "release_asc" [mBare, mBare2]) :=
  ⟨List.Sublist.refl _, by simp [keysEqualA, dateVal, mBare, mBare2],
   claim_C4.1 "release_asc" [mBare, mBare2] mBare mBare2 (List.Sublist.refl _)
     (by simp [keysEqualA, dateVal, mBare, mBare2])⟩

/-- C5 (amended): a record whose release date is absent, empty or unparsable
takes the date value 0, the Unix epoch — not the earliest possible value.  In
the sorted output it therefore sits before every record whose date parses to
a positive instant and after every record whose date parses to a negative
(pre-1970) instant under the ascending date key, and symmetrically under the
descending one; in `part_000` this holds whenever client-side sorting is
active (non-empty query). -/
theorem claim_C5 :
  (∀ m : Movie,
     (m.release_date = none ∨ m.release_date = some ""
       ∨ (∀ s, m.release_date = some s → parseDateMs s = none)) →
     dateVal m = 0)
  ∧ (∀ (l : List Movie)
       (i j : Fin (MovieA.sortedMovies "release_asc" l).length),
      dateVal ((MovieA.sortedMovies "release_asc" l).get i) = 0 →
      0 < dateVal ((MovieA.sortedMovies "release_asc" l).get j) → i < j)
  ∧ (∀ (l : List Movie)
       (i j : Fin (MovieA.sortedMovies "release_asc" l).length),
      dateVal ((MovieA.sortedMovies "release_asc" l).get i) = 0 →
      dateVal ((MovieA.sortedMovies "release_asc" l).get j) < 0 → j < i)
  ∧ (∀ (l : List Movie)
       (i j : Fin (MovieA.sortedMovies "release_desc" l).length),
      dateVal ((MovieA.sortedMovies "release_desc" l).get i) = 0 →
      0 < dateVal ((MovieA.sortedMovies "release_desc" l).get j) → j < i)
  ∧ (∀ (l : List Movie)
       (i j : Fin (MovieA.sortedMovies "release_desc" l).length),
      dateVal ((MovieA.sortedMovies "release_desc" l).get i) = 0 →
      dateVal ((MovieA.sortedMovies "release_desc" l).get j) < 0 → i < j)
  ∧ (∀ (q : String) (l : List Movie), q ≠ "" →
      ∀ (i j : Fin (MovieB.sortedMovies q "release_date.asc" l).length),
      dateVal ((MovieB.sortedMovies q "release_date.asc" l).get i) = 0 →
      0 < dateVal ((MovieB.sortedMovies q "release_date.asc" l).get j) → i < j)
  ∧ (∀ (q : String) (l : List Movie), q ≠ "" →
      ∀ (i j : Fin (MovieB.sortedMovies q "release_date.desc" l).length),
      dateVal ((MovieB.sortedMovies q "release_date.desc" l).get i) = 0 →
      0 < dateVal ((MovieB.sortedMovies q "release_date.desc" l).get j) → j < i)
  ∧ (∀ (q : String) (l : List Movie), q ≠ "" →
      ∀ (i j : Fin (MovieB.sortedMovies q "release_date.asc" l).length),
      dateVal ((MovieB.sortedMovies q "release_date.asc" l).get i) = 0 →
      dateVal ((MovieB.sortedMovies q "release_date.asc" l).get j) < 0 → j < i)
  ∧ (∀ (q : String) (l : List Movie), q ≠ "" →
      ∀ (i j : Fin (MovieB.sortedMovies q "release_date.desc" l).length),
      dateVal ((MovieB.sortedMovies q "release_date.desc" l).get i) = 0 →
      dateVal ((MovieB.sortedMovies q "release_date.desc" l).get j) < 0 → i < j) := by
  refine ⟨?_, ?_, ?_, ?_, ?_, ?_, ?_, ?_, ?_⟩
  · intro m h
    rcases hm : m.release_date with _ | s
    · simp [dateVal, hm]
    · rcases h with h | h | h
      · simp_all
      · rw [hm] at h
        cases h
        simp [dateVal, hm]
      · by_cases hse : s = ""
        · simp [dateVal, hm, hse]
        · simp [dateVal, hm, hse, h s hm]
  · intro l i j h0 hp
    exact lt_of_sorted_keyLe (sortedA_release_asc l) (by omega)
  · intro l i j h0 hn
    exact lt_of_sorted_keyLe (sortedA_release_asc l) (by omega)
  · intro l i j h0 hp
    exact gt_of_sorted_keyGe (sortedA_release_desc l) (by omega)
  · intro l i j h0 hn
    exact gt_of_sorted_keyGe (sortedA_release_desc l) (by omega)
  · intro q l hq i j h0 hp
    exact lt_of_sorted_keyLe (sortedB_release_asc q l hq) (by omega)
  · intro q l hq i j h0 hp
    exact gt_of_sorted_keyGe (sortedB_release_desc q l hq) (by omega)
  · intro q l hq i j h0 hn
    exact lt_of_sorted_keyLe (sortedB_release_asc q l hq) (by omega)
  · intro q l hq i j h0 hn
    exact gt_of_sorted_keyGe (sortedB_release_desc q l hq) (by omega)

/-- C5 counterexample: under the ascending date sort a record with the valid
pre-epoch date 1960-01-01 (a negative date value) ends up before a record
with no release date at all, refuting the claim that a record with an absent
date sorts before every record with a valid (parsable) date. -/
theorem claim_C5_cex :
  MovieA.sortedMovies "release_asc" [mBare, m1960] = [m1960, mBare]
  ∧ (parseDateMs "1960-01-01").isSome = true
  ∧ dateVal m1960 < 0
  ∧ mBare.release_date = none := by
  decide

theorem claim_C5_witness :
  dateVal mBare = 0
  ∧ dateVal ((MovieA.sortedMovies "release_asc" [m2020, mBare]).get
      ⟨0, by decide⟩) = 0
  ∧ 0 < dateVal ((MovieA.sortedMovies "release_asc" [m2020, mBare]).get
      ⟨1, by decide⟩)
  ∧ (⟨0, by decide⟩ : Fin (MovieA.sortedMovies "release_asc" [m2020, mBare]).length)
      < ⟨1, by decide⟩ :=
  ⟨claim_C5.1 mBare (Or.inl rfl),
   by decide, by decide,
   claim_C5.2.1 [m2020, mBare] ⟨0, by decide⟩ ⟨1, by decide⟩ (by decide) (by decide)⟩

end MovieApp
